import Mathlib

/-!
Verification of the Universal AI API Connector core
(`src/runtime.py`, `src/config_schema.py`, `src/openapi_parser.py`).

The Python code is shallowly embedded: JSON-compatible Python values become
the inductive type `Json` (Python `None` is `Json.null`; Python dicts are
association lists in insertion order, which models CPython dict ordering),
pure functions become Lean functions, numeric values become exact rationals,
and operations that can raise become `Except PyError` computations where a
`.error` models an uncaught Python exception at that point.  String
primitives (`split`, `replace`, `lower`, substring tests) are implemented
on character lists to mirror Python semantics on the ASCII data the code
manipulates.
-/

namespace UAC

/-- A JSON-compatible Python value.  `null` doubles as Python `None`;
`obj` keeps fields in insertion order like a CPython `dict`. -/
inductive Json where
  | null : Json
  | bool (b : Bool) : Json
  | num (n : Int) : Json
  | str (s : String) : Json
  | arr (xs : List Json) : Json
  | obj (fields : List (String × Json)) : Json

/-- Kinds of Python exceptions that the embedded code can raise. -/
inductive PyError where
  | typeError : PyError
  | keyError (k : String) : PyError
  | valueError : PyError
  | attributeError : PyError
  deriving DecidableEq

/-- Whether a value is Python `None` (models `x is None`). -/
def Json.isNull : Json → Bool
  | Json.null => true
  | _ => false

/-- Python truthiness of a JSON-compatible value (`if x:`). -/
def jtruthy : Json → Bool
  | Json.null => false
  | Json.bool b => b
  | Json.num n => n != 0
  | Json.str s => !s.isEmpty
  | Json.arr xs => !xs.isEmpty
  | Json.obj fields => !fields.isEmpty

/-- First binding of a key in an association list, like `dict.get` on a
dict whose insertion order is the list order. -/
def jfind (fields : List (String × Json)) (k : String) : Option Json :=
  match fields with
  | [] => none
  | (k2, v) :: rest => if k2 = k then some v else jfind rest k

/-- Model of `d[k] = v` on a Python dict: replace the first binding of `k`,
or append a new binding (CPython keeps insertion order). -/
def jset (fields : List (String × Json)) (k : String) (v : Json) :
    List (String × Json) :=
  match fields with
  | [] => [(k, v)]
  | (k2, w) :: rest => if k2 = k then (k2, v) :: rest else (k2, w) :: jset rest k v

/-- Character-list splitter behind `splitDot`. -/
def splitDotGo (acc : List Char) : List Char → List String
  | [] => [String.mk acc.reverse]
  | c :: rest =>
    if c = '.' then String.mk acc.reverse :: splitDotGo [] rest
    else splitDotGo (c :: acc) rest

/-- Model of Python `path.split(".")`; like Python, `"".split(".")` is
`[""]`. -/
def splitDot (s : String) : List String := splitDotGo [] s.data

/-- Model of Python `str.isdigit` for the ASCII strings used as path
segments: nonempty and all characters are decimal digits. -/
def isDigitStr (s : String) : Bool :=
  match s.data with
  | [] => false
  | cs => cs.all Char.isDigit

/-- Model of Python `int(s)` on a digit string (handles leading zeros). -/
def digitVal (s : String) : Nat :=
  s.data.foldl (fun n c => n * 10 + (c.toNat - 48)) 0

/-- Embedding of `ConnectorRuntime._get_nested_value` (runtime.py lines
186-213) acting on an already-split path.  Python returns `None` both for a
missing location and for a stored `None`; both are `Json.null` here. -/
def getNestedParts (cur : Json) (parts : List String) : Json :=
  match parts with
  | [] => cur
  | p :: rest =>
    if cur.isNull then Json.null
    else if isDigitStr p then
      match cur with
      | Json.arr xs =>
        if h : digitVal p < xs.length then getNestedParts (xs.get ⟨digitVal p, h⟩) rest
        else Json.null
      | _ => Json.null
    else
      match cur with
      | Json.obj fields => getNestedParts ((jfind fields p).getD Json.null) rest
      | _ => Json.null

/-- `_get_nested_value` on a dot-notation path string. -/
def getNestedValue (root : Json) (path : String) : Json :=
  getNestedParts root (splitDot path)

/-- Embedding of the loop and final assignment of
`ConnectorRuntime._set_nested_value` (runtime.py lines 158-184), given the
non-terminal segments and the terminal segment.  Digit non-terminal
segments are skipped (`continue`); traversing or assigning into a non-dict
raises `TypeError` in Python (membership tests and indexing with a string
key fail on every non-dict JSON value), modeled as `.error .typeError`; a
digit terminal segment returns without performing the final assignment. -/
def setNestedGo (cur : Json) (nonFinal : List String) (final : String)
    (v : Json) : Except PyError Json :=
  match nonFinal with
  | [] =>
    if isDigitStr final then Except.ok cur
    else
      match cur with
      | Json.obj fields => Except.ok (Json.obj (jset fields final v))
      | _ => Except.error PyError.typeError
  | p :: rest =>
    if isDigitStr p then setNestedGo cur rest final v
    else
      match cur with
      | Json.obj fields =>
        match jfind fields p with
        | some child =>
          match setNestedGo child rest final v with
          | Except.ok c2 => Except.ok (Json.obj (jset fields p c2))
          | Except.error e => Except.error e
        | none =>
          match setNestedGo (Json.obj []) rest final v with
          | Except.ok c2 => Except.ok (Json.obj (fields ++ [(p, c2)]))
          | Except.error e => Except.error e
      | _ => Except.error PyError.typeError

/-- `_set_nested_value` on a dot-notation path string.  The Python function
mutates `obj` in place; here the mutated object is returned.  `splitDot`
never yields an empty list, so the first branch is unreachable. -/
def setNestedValue (root : Json) (path : String) (v : Json) :
    Except PyError Json :=
  match (splitDot path).reverse with
  | [] => Except.error PyError.typeError
  | final :: revNonFinal => setNestedGo root revNonFinal.reverse final v

/-- Whether a value is a Python dict. -/
def Json.isObj : Json → Bool
  | Json.obj _ => true
  | _ => false

/-- The traversal precondition under which `_set_nested_value` performs a
real write along the non-terminal segments `nonFinal`: every value met
along them is a dict (missing keys are fine, a fresh dict is created),
and the final assignment target reached at the end is a dict. -/
def setTraversableGo (cur : Json) (nonFinal : List String) : Bool :=
  match nonFinal with
  | [] => cur.isObj
  | p :: rest =>
    match cur with
    | Json.obj fields =>
      match jfind fields p with
      | some child => setTraversableGo child rest
      | none => setTraversableGo (Json.obj []) rest
    | _ => false

/-- Structural presence of a dot-path: true when traversal reaches a stored
value (even a stored `null`), false when a key is missing, an index is out
of range, or traversal passes through a non-container. -/
def pathPresent (cur : Json) (parts : List String) : Bool :=
  match parts with
  | [] => true
  | p :: rest =>
    if isDigitStr p then
      match cur with
      | Json.arr xs =>
        if h : digitVal p < xs.length then pathPresent (xs.get ⟨digitVal p, h⟩) rest
        else false
      | _ => false
    else
      match cur with
      | Json.obj fields =>
        match jfind fields p with
        | some child => pathPresent child rest
        | none => false
      | _ => false

theorem jfind_jset_self (fields : List (String × Json)) (k : String) (v : Json) :
    jfind (jset fields k v) k = some v := by
  induction fields with
  | nil => simp [jfind, jset]
  | cons hd tl ih =>
    obtain ⟨k2, w⟩ := hd
    by_cases h : k2 = k
    · simp [jfind, jset, h]
    · simp [jfind, jset, h, ih]

theorem jfind_append_self (fields : List (String × Json)) (k : String) (v : Json)
    (h : jfind fields k = none) :
    jfind (fields ++ [(k, v)]) k = some v := by
  induction fields with
  | nil => simp [jfind]
  | cons hd tl ih =>
    obtain ⟨k2, w⟩ := hd
    by_cases h2 : k2 = k
    · simp [jfind, h2] at h
    · simp [jfind, h2] at h ⊢
      exact ih h

theorem getNestedParts_nil (cur : Json) : getNestedParts cur [] = cur := rfl

/-- After a traversable all-object-segment write, reading the same path
back returns exactly the written value. -/
theorem getNested_setNestedGo (nonFinal : List String) (final : String)
    (root v : Json)
    (hnd : ∀ p ∈ nonFinal ++ [final], isDigitStr p = false)
    (htrav : setTraversableGo root nonFinal = true) :
    ∃ r, setNestedGo root nonFinal final v = Except.ok r ∧
      getNestedParts r (nonFinal ++ [final]) = v := by
  induction nonFinal generalizing root with
  | nil =>
    have hf : isDigitStr final = false := hnd final (by simp)
    cases root with
    | obj fields =>
      refine ⟨Json.obj (jset fields final v), ?_, ?_⟩
      · simp [setNestedGo, hf]
      · simp [getNestedParts, Json.isNull, hf, jfind_jset_self]
    | null => simp [setTraversableGo, Json.isObj] at htrav
    | bool b => simp [setTraversableGo, Json.isObj] at htrav
    | num n => simp [setTraversableGo, Json.isObj] at htrav
    | str s => simp [setTraversableGo, Json.isObj] at htrav
    | arr xs => simp [setTraversableGo, Json.isObj] at htrav
  | cons p rest ih =>
    have hp : isDigitStr p = false := hnd p (by simp)
    have hndrest : ∀ q ∈ rest ++ [final], isDigitStr q = false := by
      intro q hq
      apply hnd
      simp at hq ⊢
      tauto
    cases root with
    | obj fields =>
      rw [setTraversableGo] at htrav
      rcases hfind : jfind fields p with _ | child <;> rw [hfind] at htrav
      · obtain ⟨r, hset, hget⟩ := ih (Json.obj []) hndrest htrav
        refine ⟨Json.obj (fields ++ [(p, r)]), ?_, ?_⟩
        · simp [setNestedGo, hp, hfind, hset]
        · simp [getNestedParts, Json.isNull, hp,
            jfind_append_self fields p r hfind, hget]
      · obtain ⟨r, hset, hget⟩ := ih child hndrest htrav
        refine ⟨Json.obj (jset fields p r), ?_, ?_⟩
        · simp [setNestedGo, hp, hfind, hset]
        · simp [getNestedParts, Json.isNull, hp, jfind_jset_self, hget]
    | null => simp [setTraversableGo] at htrav
    | bool b => simp [setTraversableGo] at htrav
    | num n => simp [setTraversableGo] at htrav
    | str s => simp [setTraversableGo] at htrav
    | arr xs => simp [setTraversableGo] at htrav

/-- C1 as written fails on mixed object/array paths: setting value `5` at
path `a.0.b` (terminal segment `b` non-numeric) in an empty root object
silently skips the array segment and writes at `a.b`, so reading back
`a.0.b` yields null, not `5`. -/
theorem c1_cex :
    setNestedValue (Json.obj []) "a.0.b" (Json.num 5) =
      Except.ok (Json.obj [("a", Json.obj [("b", Json.num 5)])]) ∧
    getNestedValue (Json.obj [("a", Json.obj [("b", Json.num 5)])]) "a.0.b" =
      Json.null ∧
    Json.null ≠ Json.num 5 := by
  refine ⟨rfl, rfl, fun h => Json.noConfusion h⟩

/-- C1 (amended): the get-after-set round trip
`_get_nested_value(_set_nested_value(root, p, v), p) = v` holds for every
value `v` and every dot-path `p` all of whose segments are non-numeric,
provided every value met along the path in `root` is an object (missing
keys are fine: fresh objects are created).  Mixed object/array paths are
excluded: `_set_nested_value` skips numeric segments, so it writes at a
different location than the one `_get_nested_value` reads. -/
theorem splitDotGo_ne_nil (acc : List Char) (cs : List Char) :
    splitDotGo acc cs ≠ [] := by
  induction cs generalizing acc with
  | nil => simp [splitDotGo]
  | cons c rest ih =>
    rw [splitDotGo]
    by_cases h : c = '.'
    · simp [h]
    · simp [h, ih]

theorem c1_roundtrip (root v : Json) (path : String)
    (hnd : ∀ p ∈ splitDot path, isDigitStr p = false)
    (htrav : setTraversableGo root (splitDot path).dropLast = true) :
    ∃ r, setNestedValue root path v = Except.ok r ∧
      getNestedValue r path = v := by
  obtain ⟨nonFinal, final, hsplit⟩ : ∃ nf f, splitDot path = nf ++ [f] := by
    rcases List.eq_nil_or_concat (splitDot path) with h | ⟨nf, f, h⟩
    · exact absurd h (splitDotGo_ne_nil [] path.data)
    · exact ⟨nf, f, by rw [h, List.concat_eq_append]⟩
  rw [hsplit] at hnd htrav
  rw [List.dropLast_concat] at htrav
  obtain ⟨r, hset, hget⟩ :=
    getNested_setNestedGo nonFinal final root v hnd htrav
  refine ⟨r, ?_, ?_⟩
  · rw [setNestedValue, hsplit]
    simp [hset]
  · rw [getNestedValue, hsplit, hget]

/-- Witness for `c1_roundtrip` at root `{}`, path `a.b`, value `7`. -/
theorem c1_roundtrip_witness :
    ∃ r, setNestedValue (Json.obj []) "a.b" (Json.num 7) = Except.ok r ∧
      getNestedValue r "a.b" = Json.num 7 :=
  c1_roundtrip (Json.obj []) (Json.num 7) "a.b"
    (by intro p hp; fin_cases hp <;> rfl) rfl

/-- When the terminal segment is numeric, the written value is irrelevant:
the final assignment is skipped, though intermediate traversal (and its
object creation, or its failure on non-dicts) still happens. -/
theorem setNestedGo_digit_final (nonFinal : List String) (final : String)
    (hdig : isDigitStr final = true) (cur v w : Json) :
    setNestedGo cur nonFinal final v = setNestedGo cur nonFinal final w := by
  induction nonFinal generalizing cur with
  | nil => simp [setNestedGo, hdig]
  | cons p rest ih =>
    cases cur with
    | obj fields =>
      by_cases hp : isDigitStr p = true
      · simp only [setNestedGo, if_pos hp]
        exact ih _
      · simp only [setNestedGo, if_neg hp]
        cases hfind : jfind fields p with
        | some child => simp [hfind, ih child]
        | none => simp [hfind, ih (Json.obj [])]
    | null =>
      simp only [setNestedGo]
      by_cases hp : isDigitStr p = true <;> simp [hp, ih]
    | bool b =>
      simp only [setNestedGo]
      by_cases hp : isDigitStr p = true <;> simp [hp, ih]
    | num n =>
      simp only [setNestedGo]
      by_cases hp : isDigitStr p = true <;> simp [hp, ih]
    | str s =>
      simp only [setNestedGo]
      by_cases hp : isDigitStr p = true <;> simp [hp, ih]
    | arr xs =>
      simp only [setNestedGo]
      by_cases hp : isDigitStr p = true <;> simp [hp, ih]

/-- C8 as written fails: on root `{}` and path `a.0` (terminal segment
numeric), `_set_nested_value` creates the intermediate object for `a`
before noticing the numeric terminal, so the root is mutated to
`{"a": {}}`, not left unchanged. -/
theorem c8_cex :
    setNestedValue (Json.obj []) "a.0" (Json.num 1) =
      Except.ok (Json.obj [("a", Json.obj [])]) ∧
    Json.obj [("a", Json.obj [])] ≠ Json.obj [] := by
  exact ⟨rfl, by simp⟩

/-- C8 (amended): for a path whose terminal segment parses as a
non-negative integer, `_set_nested_value` never writes the value anywhere
(the result is independent of the value), and a single-segment numeric
path is a complete no-op returning the root unchanged; however, missing
non-terminal segments still cause intermediate objects to be created, so
the root is not in general left unchanged. -/
theorem c8_digit_terminal (root v w : Json) (path : String)
    (nf : List String) (f : String)
    (hsplit : splitDot path = nf ++ [f])
    (hdig : isDigitStr f = true) :
    setNestedValue root path v = setNestedValue root path w ∧
    (nf = [] → setNestedValue root path v = Except.ok root) := by
  constructor
  · rw [setNestedValue, setNestedValue, hsplit]
    simp [setNestedGo_digit_final nf f hdig root v w]
  · intro hnil
    subst hnil
    rw [setNestedValue, hsplit]
    simp [setNestedGo, hdig]

/-- Witness for `c8_digit_terminal`: on path `a.0` the result is
independent of the written value, and on the single-segment numeric path
`3` the root `{"x": true}` is returned unchanged. -/
theorem c8_digit_terminal_witness :
    setNestedValue (Json.obj []) "a.0" (Json.num 1) =
      setNestedValue (Json.obj []) "a.0" (Json.num 2) ∧
    setNestedValue (Json.obj [("x", Json.bool true)]) "3" (Json.num 1) =
      Except.ok (Json.obj [("x", Json.bool true)]) :=
  ⟨(c8_digit_terminal (Json.obj []) (Json.num 1) (Json.num 2) "a.0"
      ["a"] "0" rfl rfl).1,
   (c8_digit_terminal (Json.obj [("x", Json.bool true)]) (Json.num 1)
      (Json.num 1) "3" [] "3" rfl rfl).2 rfl⟩

/-! ## Python string primitives -/

/-- The left-brace character, `Char.ofNat 123`. -/
def lbrace : Char := Char.ofNat 123

/-- The right-brace character, `Char.ofNat 125`. -/
def rbrace : Char := Char.ofNat 125

/-- The single-quote character, `Char.ofNat 39`. -/
def squote : Char := Char.ofNat 39

/-- Whether the first list is a leading segment of the second. -/
def leadMatch : List Char → List Char → Bool
  | [], _ => true
  | _ :: _, [] => false
  | p :: ps, h :: hs => p = h && leadMatch ps hs

/-- Whether `pat` occurs contiguously in the character list. -/
def hasSubChars (pat : List Char) : List Char → Bool
  | [] => leadMatch pat []
  | c :: rest => leadMatch pat (c :: rest) || hasSubChars pat rest

/-- Model of Python `pat in hay` on strings: contiguous substring test. -/
def strContains (hay pat : String) : Bool :=
  hasSubChars pat.data hay.data

/-- Worker for `pyReplace`.  `skip > 0` means that many characters of an
already-matched occurrence remain to be consumed without being emitted;
at `skip = 0` a match emits the replacement and schedules the remaining
`pat.length - 1` matched characters for consumption.  This scans left to
right and never matches inside a replaced occurrence, exactly like
CPython `str.replace` with a nonempty pattern. -/
def pyReplaceGo (pat rep : List Char) (skip : Nat) : List Char → List Char
  | [] => []
  | c :: rest =>
    match skip with
    | s + 1 => pyReplaceGo pat rep s rest
    | 0 =>
      if !pat.isEmpty && leadMatch pat (c :: rest) then
        rep ++ pyReplaceGo pat rep (pat.length - 1) rest
      else
        c :: pyReplaceGo pat rep 0 rest

/-- Model of Python `s.replace(pat, rep)` for the nonempty patterns the code
uses: replaces non-overlapping occurrences left to right. -/
def pyReplace (s pat rep : String) : String :=
  String.mk (pyReplaceGo pat.data rep.data 0 s.data)

/-- Escapes one character the way CPython `repr` quotes strings with single
quotes (backslash, quote and common control characters; other characters
are kept verbatim, which covers the ASCII payloads this code handles). -/
def pyEscapeChar (c : Char) : List Char :=
  if c = '\\' then ['\\', '\\']
  else if c = squote then ['\\', squote]
  else if c = '\n' then ['\\', 'n']
  else if c = '\t' then ['\\', 't']
  else if c = '\r' then ['\\', 'r']
  else [c]

/-- CPython `repr` of a string, in its default single-quote style. -/
def pyQuote (s : String) : String :=
  String.mk (squote :: (s.data.map pyEscapeChar).flatten ++ [squote])

/-- Comma-space separated concatenation, as CPython uses between container
elements. -/
def joinComma : List String → String
  | [] => ""
  | [s] => s
  | s :: rest => s ++ ", " ++ joinComma rest

mutual
/-- CPython `repr` of a JSON-compatible value: `None`, `True`/`False`,
decimal integers, single-quoted strings, and bracketed containers. -/
def pyRepr : Json → String
  | Json.null => "None"
  | Json.bool true => "True"
  | Json.bool false => "False"
  | Json.num n => toString n
  | Json.str s => pyQuote s
  | Json.arr xs => "[" ++ joinComma (pyReprList xs) ++ "]"
  | Json.obj fs => String.mk [lbrace] ++ joinComma (pyReprFields fs) ++ String.mk [rbrace]

/-- The element reprs of a list value. -/
def pyReprList : List Json → List String
  | [] => []
  | x :: xs => pyRepr x :: pyReprList xs

/-- The `key: value` reprs of a dict value. -/
def pyReprFields : List (String × Json) → List String
  | [] => []
  | (k, v) :: fs => (pyQuote k ++ ": " ++ pyRepr v) :: pyReprFields fs
end

/-- CPython `str` of a JSON-compatible value: the string itself for a
string, `repr` otherwise. -/
def pyStr : Json → String
  | Json.str s => s
  | j => pyRepr j

/-- Model of Python `template.format(credential=cred)`.  `mode = none` is
ordinary scanning; `mode = some acc` is inside a replacement field whose
name characters so far are `acc` (reversed).  A lone brace raises
`ValueError`; a field other than `credential` raises `KeyError` (Python
raises `IndexError` for the empty field `\x7b\x7d`; that distinction is
not observable here). -/
def formatGo (cred : List Char) (mode : Option (List Char)) :
    List Char → Except PyError (List Char)
  | [] =>
    match mode with
    | none => Except.ok []
    | some _ => Except.error PyError.valueError
  | c :: rest =>
    match mode with
    | none =>
      if c = lbrace then
        match rest with
        | c2 :: rest2 =>
          if c2 = lbrace then (formatGo cred none rest2).map (lbrace :: ·)
          else if c2 = rbrace then Except.error (PyError.keyError "")
          else formatGo cred (some [c2]) rest2
        | [] => Except.error PyError.valueError
      else if c = rbrace then
        match rest with
        | c2 :: rest2 =>
          if c2 = rbrace then (formatGo cred none rest2).map (rbrace :: ·)
          else Except.error PyError.valueError
        | [] => Except.error PyError.valueError
      else (formatGo cred none rest).map (c :: ·)
    | some acc =>
      if c = rbrace then
        if String.mk acc.reverse = "credential" then
          (formatGo cred none rest).map (cred ++ ·)
        else Except.error (PyError.keyError (String.mk acc.reverse))
      else formatGo cred (some (c :: acc)) rest

/-- Model of `value_template.format(credential=self.credential)`. -/
def formatCredential (template cred : String) : Except PyError String :=
  (formatGo cred.data none template.data).map String.mk

/-- Model of Python `s.rstrip(\x27/\x27)`. -/
def rstripSlash (s : String) : String :=
  String.mk ((s.data.reverse.dropWhile (fun c => c = '/')).reverse)

/-! ## Configuration model (`src/config_schema.py`) -/

/-- Embedding of `AuthConfig`. -/
structure AuthConfig where
  type : String
  key_name : String
  value_template : String

/-- Embedding of `RequestMapping`.  `extra_headers` is a string-valued dict
in every configuration the code produces or consumes. -/
structure RequestMapping where
  endpoint : String
  method : String
  prompt_field : String
  static_fields : Json
  content_type : String
  extra_headers : List (String × String)

/-- Embedding of `ResponseMapping`. -/
structure ResponseMapping where
  response_field : String
  error_field : Option String

/-- Embedding of `ConnectorConfig`. -/
structure ConnectorConfig where
  name : String
  provider : String
  base_url : String
  auth : Option AuthConfig
  request : Option RequestMapping
  response : Option ResponseMapping
  version : String
  streaming : Bool
  timeout_seconds : Int

/-! ## Request building (`ConnectorRuntime`) -/

/-- Model of `d[k] = v` on a string-valued Python dict. -/
def hset (hs : List (String × String)) (k v : String) :
    List (String × String) :=
  match hs with
  | [] => [(k, v)]
  | (k2, w) :: rest => if k2 = k then (k2, v) :: rest else (k2, w) :: hset rest k v

/-- Embedding of `ConnectorRuntime._build_headers` (runtime.py lines
103-120): Content-Type, then `extra_headers` (dict update), then the auth
header when `auth.type == "header"`; formatting the credential template can
raise. -/
def buildHeaders (req : RequestMapping) (auth : Option AuthConfig)
    (cred : String) : Except PyError (List (String × String)) :=
  let headers := [("Content-Type", req.content_type)]
  let headers := req.extra_headers.foldl (fun hs kv => hset hs kv.1 kv.2) headers
  match auth with
  | some a =>
    if a.type = "header" then
      match formatCredential a.value_template cred with
      | Except.ok av => Except.ok (hset headers a.key_name av)
      | Except.error e => Except.error e
    else Except.ok headers
  | none => Except.ok headers

mutual
/-- Embedding of `ConnectorRuntime._replace_prompt_placeholder` (runtime.py
lines 147-156): rewrites string values at every depth, recursing through
dict values and list elements; dict keys and non-string scalars are
returned unchanged. -/
def replacePrompt (prompt : String) : Json → Json
  | Json.str s => Json.str (pyReplace s "{prompt}" prompt)
  | Json.arr xs => Json.arr (replacePromptList prompt xs)
  | Json.obj fs => Json.obj (replacePromptFields prompt fs)
  | j => j

/-- List-element recursion of `_replace_prompt_placeholder`. -/
def replacePromptList (prompt : String) : List Json → List Json
  | [] => []
  | x :: xs => replacePrompt prompt x :: replacePromptList prompt xs

/-- Dict-value recursion of `_replace_prompt_placeholder`; keys are kept. -/
def replacePromptFields (prompt : String) :
    List (String × Json) → List (String × Json)
  | [] => []
  | (k, v) :: fs => (k, replacePrompt prompt v) :: replacePromptFields prompt fs
end

/-- The strategy predicate of `_build_body`: the literal test
`"{prompt}" in str(body)` on the deep-copied template. -/
def containsPlaceholder (body : Json) : Bool :=
  strContains (pyStr body) "{prompt}"

/-- Embedding of `ConnectorRuntime._build_body` (runtime.py lines 122-145).
The Python code deep-copies `static_fields` before mutating; value
semantics make the copy implicit here.  Body auth injection happens after
prompt injection, as in the source. -/
def buildBody (req : RequestMapping) (auth : Option AuthConfig)
    (cred : String) (prompt : String) : Except PyError Json :=
  let body := req.static_fields
  let injected :=
    if containsPlaceholder body then Except.ok (replacePrompt prompt body)
    else setNestedValue body req.prompt_field (Json.str prompt)
  match injected with
  | Except.error e => Except.error e
  | Except.ok body1 =>
    match auth with
    | some a =>
      if a.type = "body" then
        match formatCredential a.value_template cred with
        | Except.ok av => setNestedValue body1 a.key_name (Json.str av)
        | Except.error e => Except.error e
      else Except.ok body1
    | none => Except.ok body1

/-- Embedding of the pre-loop request construction of
`ConnectorRuntime.send_prompt` (runtime.py lines 259-261): url, headers,
body, in source order, before the retry loop and outside any
exception handler.  A missing `request` section raises `AttributeError`
(`self.config.request.endpoint` on `None`). -/
def buildRequest (cfg : ConnectorConfig) (cred prompt : String) :
    Except PyError (String × List (String × String) × Json) :=
  match cfg.request with
  | none => Except.error PyError.attributeError
  | some req =>
    let url := rstripSlash cfg.base_url ++ req.endpoint
    match buildHeaders req cfg.auth cred with
    | Except.error e => Except.error e
    | Except.ok headers =>
      match buildBody req cfg.auth cred prompt with
      | Except.error e => Except.error e
      | Except.ok body => Except.ok (url, headers, body)

/-! ## C4: the dual prompt-injection strategy -/

mutual
/-- The non-string skeleton of a value: every string (and only strings)
is collapsed to `null`, keys and all other structure kept.  Two values
with equal skeletons differ at most in their string leaves. -/
def skeleton : Json → Json
  | Json.str _ => Json.null
  | Json.arr xs => Json.arr (skeletonList xs)
  | Json.obj fs => Json.obj (skeletonFields fs)
  | j => j

/-- Skeletons of list elements. -/
def skeletonList : List Json → List Json
  | [] => []
  | x :: xs => skeleton x :: skeletonList xs

/-- Skeletons of dict values; keys are kept. -/
def skeletonFields : List (String × Json) → List (String × Json)
  | [] => []
  | (k, v) :: fs => (k, skeleton v) :: skeletonFields fs
end

mutual
/-- `_replace_prompt_placeholder` only rewrites string leaves: the
skeleton, and with it every dict key and all non-string structure, is
preserved. -/
theorem skeleton_replacePrompt (prompt : String) (j : Json) :
    skeleton (replacePrompt prompt j) = skeleton j := by
  cases j with
  | str s => simp [replacePrompt, skeleton]
  | arr xs => simp [replacePrompt, skeleton, skeleton_replacePromptList prompt xs]
  | obj fs => simp [replacePrompt, skeleton, skeleton_replacePromptFields prompt fs]
  | null => rfl
  | bool b => rfl
  | num n => rfl

/-- List version of `skeleton_replacePrompt`. -/
theorem skeleton_replacePromptList (prompt : String) (xs : List Json) :
    skeletonList (replacePromptList prompt xs) = skeletonList xs := by
  cases xs with
  | nil => rfl
  | cons x rest =>
    simp [replacePromptList, skeletonList, skeleton_replacePrompt prompt x,
      skeleton_replacePromptList prompt rest]

/-- Dict version of `skeleton_replacePrompt`. -/
theorem skeleton_replacePromptFields (prompt : String)
    (fs : List (String × Json)) :
    skeletonFields (replacePromptFields prompt fs) = skeletonFields fs := by
  cases fs with
  | nil => rfl
  | cons kv rest =>
    obtain ⟨k, v⟩ := kv
    simp [replacePromptFields, skeletonFields, skeleton_replacePrompt prompt v,
      skeleton_replacePromptFields prompt rest]
end

/-- The OpenAI-style conversation template
`\x7b"messages": [\x7b"role": "user", "content": "{prompt}"\x7d]\x7d`. -/
def msgTemplate : Json :=
  Json.obj [("messages", Json.arr [Json.obj
    [("role", Json.str "user"), ("content", Json.str "{prompt}")]])]

/-- C4 as written fails when the placeholder occurs inside a dict key: the
strategy predicate `"{prompt}" in str(body)` sees keys, but
`_replace_prompt_placeholder` rewrites only values, so with
`static_fields = \x7b"{prompt}": true\x7d` and prompt `Hi` the built body is
the template itself, unreplaced, and the prompt text appears nowhere. -/
theorem c4_cex :
    containsPlaceholder (Json.obj [("{prompt}", Json.bool true)]) = true ∧
    buildBody
      (RequestMapping.mk "/e" "POST" "x" (Json.obj [("{prompt}", Json.bool true)])
        "application/json" []) none "k" "Hi" =
      Except.ok (Json.obj [("{prompt}", Json.bool true)]) ∧
    strContains (pyStr (Json.obj [("{prompt}", Json.bool true)])) "{prompt}" = true := by
  have hcp : containsPlaceholder (Json.obj [("{prompt}", Json.bool true)]) = true := by
    simp only [containsPlaceholder, pyStr, pyRepr, pyReprFields, pyReprList]
    decide
  refine ⟨hcp, ?_, ?_⟩
  · simp only [buildBody]
    rw [hcp]
    simp only [if_true]
    simp [replacePrompt, replacePromptFields]
  · have h2 := hcp
    simp only [containsPlaceholder] at h2
    exact h2

/-- C4 (amended): prompt injection is a dual strategy chosen by the pure
predicate `"{prompt}" in str(static_fields)` over the (deep-copied, hence
never-mutated) template: when it holds, every occurrence of `{prompt}`
inside string values is replaced at every depth, preserving dict keys and
all non-string structure (occurrences inside dict keys trigger the
predicate but are not themselves replaced); otherwise the prompt text is
written at `prompt_field` via the nested set.  On the conversation
template with prompt `Hi`, the built body has `messages[0].content = Hi`
and everything else equal to the template. -/
theorem c4_buildBody (req : RequestMapping) (cred prompt : String) :
    (containsPlaceholder req.static_fields = true →
      buildBody req none cred prompt =
        Except.ok (replacePrompt prompt req.static_fields)) ∧
    (containsPlaceholder req.static_fields = false →
      buildBody req none cred prompt =
        setNestedValue req.static_fields req.prompt_field (Json.str prompt)) ∧
    (∀ j, skeleton (replacePrompt prompt j) = skeleton j) ∧
    buildBody (RequestMapping.mk "/v1/chat/completions" "POST" "messages"
        msgTemplate "application/json" []) none cred "Hi" =
      Except.ok (Json.obj [("messages", Json.arr [Json.obj
        [("role", Json.str "user"), ("content", Json.str "Hi")]])]) := by
  refine ⟨?_, ?_, skeleton_replacePrompt prompt, ?_⟩
  · intro hcp
    simp only [buildBody]
    rw [hcp]
    simp
  · intro hcp
    simp only [buildBody]
    rw [hcp]
    simp only [Bool.false_eq_true, if_false]
    cases h : setNestedValue req.static_fields req.prompt_field (Json.str prompt) with
    | ok b => simp [h]
    | error e => simp [h]
  · have hcp : containsPlaceholder msgTemplate = true := by
      simp only [containsPlaceholder, msgTemplate, pyStr, pyRepr, pyReprFields,
        pyReprList]
      decide
    simp only [buildBody]
    rw [hcp]
    simp only [if_true, msgTemplate]
    simp [replacePrompt, replacePromptList, replacePromptFields]
    decide

/-- Witness for `c4_buildBody`: template substitution on a flat template
whose single string value embeds the placeholder. -/
theorem c4_buildBody_witness :
    buildBody (RequestMapping.mk "/e" "POST" "p"
        (Json.obj [("q", Json.str "ask {prompt} now")]) "ct" []) none "k" "Yo" =
      Except.ok (replacePrompt "Yo"
        (Json.obj [("q", Json.str "ask {prompt} now")])) :=
  (c4_buildBody (RequestMapping.mk "/e" "POST" "p"
      (Json.obj [("q", Json.str "ask {prompt} now")]) "ct" []) "k" "Yo").1
    (by simp only [containsPlaceholder, pyStr, pyRepr, pyReprFields]; decide)

/-! ## Error classification and retry policy (`src/runtime.py`) -/

/-- Embedding of the `ErrorType` enum. -/
inductive ErrorType where
  | SUCCESS
  | AUTH_ERROR
  | RATE_LIMIT
  | BAD_REQUEST
  | SERVER_ERROR
  | TIMEOUT
  | NETWORK_ERROR
  | PARSE_ERROR
  | UNKNOWN
  deriving DecidableEq

/-- Transport-level exceptions `httpx` can raise from `client.request`.
`timeoutExc` models `httpx.TimeoutException`, `requestErr` the remaining
`httpx.RequestError`s, and `otherExc` any other exception (including
faults raised inside the loop body itself). -/
inductive TransportExc where
  | timeoutExc
  | requestErr (msg : String)
  | otherExc (msg : String)
  deriving DecidableEq

/-- Embedding of `RetryConfig` (runtime.py lines 57-64), with Python
floats as exact rationals. -/
structure RetryConfig where
  max_retries : Nat
  base_delay : ℚ
  max_delay : ℚ
  exponential_base : ℚ
  retry_on : List ErrorType

/-- The dataclass defaults of `RetryConfig`. -/
def defaultRetryConfig : RetryConfig :=
  ⟨3, 1, 30, 2,
   [ErrorType.RATE_LIMIT, ErrorType.SERVER_ERROR, ErrorType.TIMEOUT]⟩

/-- Embedding of `ConnectorRuntime._classify_error` (runtime.py lines
215-239): the exception branch takes precedence (`httpx.TimeoutException`
is tested before the broader `httpx.RequestError`), then status-code
ranges. -/
def classifyError (status : Option Int) (exc : Option TransportExc) :
    ErrorType :=
  match exc with
  | some TransportExc.timeoutExc => ErrorType.TIMEOUT
  | some (TransportExc.requestErr _) => ErrorType.NETWORK_ERROR
  | some (TransportExc.otherExc _) => ErrorType.UNKNOWN
  | none =>
    match status with
    | none => ErrorType.UNKNOWN
    | some s =>
      if s = 401 ∨ s = 403 then ErrorType.AUTH_ERROR
      else if s = 429 then ErrorType.RATE_LIMIT
      else if s = 400 then ErrorType.BAD_REQUEST
      else if s ≥ 500 then ErrorType.SERVER_ERROR
      else if s ≥ 400 then ErrorType.UNKNOWN
      else ErrorType.SUCCESS

/-- Embedding of `ConnectorRuntime._calculate_delay` (runtime.py lines
241-244). -/
def calcDelay (rc : RetryConfig) (attempt : Nat) : ℚ :=
  min (rc.base_delay * rc.exponential_base ^ attempt) rc.max_delay

/-- Embedding of `ConnectorRuntime._should_retry` (runtime.py lines
246-250). -/
def shouldRetry (rc : RetryConfig) (et : ErrorType) (attempt : Nat) : Bool :=
  if attempt ≥ rc.max_retries then false
  else rc.retry_on.contains et

/-- C6: `_should_retry(kind, attempt)` holds exactly when
`attempt < max_retries` and the kind is in the retryable set; with the
default retryable set `\x7bRATE_LIMIT, SERVER_ERROR, TIMEOUT\x7d`, the
kinds AUTH_ERROR, BAD_REQUEST and PARSE_ERROR are never retried at any
attempt count. -/
theorem c6_shouldRetry (rc : RetryConfig) (et : ErrorType) (attempt : Nat) :
    (shouldRetry rc et attempt = true ↔
      attempt < rc.max_retries ∧ et ∈ rc.retry_on) ∧
    (rc.retry_on = defaultRetryConfig.retry_on →
      (et = ErrorType.AUTH_ERROR ∨ et = ErrorType.BAD_REQUEST ∨
        et = ErrorType.PARSE_ERROR) →
      shouldRetry rc et attempt = false) := by
  constructor
  · rw [shouldRetry]
    by_cases h : attempt ≥ rc.max_retries
    · simp [h]
    · have hlt : attempt < rc.max_retries := by omega
      simp [h, hlt, List.contains_iff_exists_mem_beq, beq_iff_eq]
  · intro hdef het
    rw [shouldRetry]
    by_cases h : attempt ≥ rc.max_retries
    · simp [h]
    · simp only [h, if_false]
      rw [hdef]
      rcases het with h1 | h1 | h1 <;> subst h1 <;> rfl

/-- Witness for `c6_shouldRetry`: AUTH_ERROR is not retried at attempt 0
under the default policy. -/
theorem c6_shouldRetry_witness :
    shouldRetry defaultRetryConfig ErrorType.AUTH_ERROR 0 = false :=
  (c6_shouldRetry defaultRetryConfig ErrorType.AUTH_ERROR 0).2 rfl
    (Or.inl rfl)

/-- C7: the backoff delay equals
`min(max_delay, base_delay * growth_factor ^ attempt)` for every 0-based
attempt, and under `base_delay ≥ 0` and `growth_factor ≥ 1` it is
monotone in the attempt and capped by `max_delay`. -/
theorem c7_calcDelay (rc : RetryConfig)
    (hb : 0 ≤ rc.base_delay) (hg : 1 ≤ rc.exponential_base) :
    (∀ n, calcDelay rc n =
      min rc.max_delay (rc.base_delay * rc.exponential_base ^ n)) ∧
    (∀ n, calcDelay rc n ≤ rc.max_delay) ∧
    (∀ n, calcDelay rc n ≤ calcDelay rc (n + 1)) := by
  refine ⟨fun n => min_comm _ _, fun n => min_le_right _ _, fun n => ?_⟩
  apply min_le_min _ le_rfl
  apply mul_le_mul_of_nonneg_left _ hb
  exact pow_le_pow_right₀ hg (Nat.le_succ n)

/-- Witness for `c7_calcDelay` at the default retry configuration. -/
theorem c7_calcDelay_witness :
    calcDelay defaultRetryConfig 0 ≤ calcDelay defaultRetryConfig 1 :=
  (c7_calcDelay defaultRetryConfig (by norm_num [defaultRetryConfig])
    (by norm_num [defaultRetryConfig])).2.2 0

/-! ## The send loop (`ConnectorRuntime.send_prompt`) -/

/-- Embedding of `ConnectorResponse` (runtime.py lines 44-55).  Wall-clock
`latency_ms` is environment-dependent and modeled as absent. -/
structure ConnectorResponse where
  success : Bool
  content : Option String
  raw_response : Option Json
  error : Option String
  error_type : ErrorType
  status_code : Option Nat
  latency_ms : Option Int
  retries : Nat

/-- The outcome of one `self.client.request(...)` call: an HTTP response
whose `.json()` either parses (`Except.ok`) or raises with message `m`
(`Except.error m`), together with its `.text`; or a raised transport
exception. -/
inductive AttemptOutcome where
  | response (status : Nat) (json : Except String Json) (text : String)
  | raised (e : TransportExc)

/-- The terminal `ConnectorResponse` of the `status_code >= 400` branch
(runtime.py lines 297-321), including the bare inner `except`: a failing
`.json()` (or an `AttributeError` from a missing `response` section while
reading `error_field`) falls back to the `.text` message; `error_field`
participates only when truthy, and the extracted detail only when truthy;
`raw_response` is the decoded body exactly when `.json()` succeeded. -/
def mkHttpErrorResponse (cfg : ConnectorConfig) (status : Nat)
    (json : Except String Json) (text : String) (et : ErrorType)
    (attempt : Nat) : ConnectorResponse :=
  let base := "API returned status " ++ toString status
  match json with
  | Except.error _ =>
    ⟨false, none, none, some (base ++ ": " ++ text), et, some status, none, attempt⟩
  | Except.ok d =>
    match cfg.response with
    | none =>
      ⟨false, none, some d, some (base ++ ": " ++ text), et, some status, none, attempt⟩
    | some rm =>
      match rm.error_field with
      | some ef =>
        if ef.isEmpty then
          ⟨false, none, some d, some (base ++ ": " ++ pyStr d), et, some status,
            none, attempt⟩
        else
          let detail := getNestedParts d (splitDot ef)
          if jtruthy detail then
            ⟨false, none, some d, some (base ++ ": " ++ pyStr detail), et,
              some status, none, attempt⟩
          else
            ⟨false, none, some d, some base, et, some status, none, attempt⟩
      | none =>
        ⟨false, none, some d, some (base ++ ": " ++ pyStr d), et, some status,
          none, attempt⟩

/-- The success-status branch (runtime.py lines 323-348): decode the body
(a failure here is caught by the generic handler and becomes a terminal
UNKNOWN, as does a missing `response` section), extract `response_field`,
report PARSE_ERROR when the extraction yields `None`, else succeed with
the stringified content. -/
def extractResponse (cfg : ConnectorConfig) (status : Nat)
    (json : Except String Json) (attempt : Nat) : ConnectorResponse :=
  match json with
  | Except.error m =>
    ⟨false, none, none, some ("Unexpected error: " ++ m), ErrorType.UNKNOWN,
      none, none, attempt⟩
  | Except.ok d =>
    match cfg.response with
    | none =>
      ⟨false, none, none,
        some "Unexpected error: 'NoneType' object has no attribute 'response_field'",
        ErrorType.UNKNOWN, none, none, attempt⟩
    | some rm =>
      let content := getNestedParts d (splitDot rm.response_field)
      if content.isNull then
        ⟨false, none, some d,
          some ("Could not extract response from path '" ++ rm.response_field ++ "'"),
          ErrorType.PARSE_ERROR, some status, none, attempt⟩
      else
        ⟨true, some (pyStr content), some d, none, ErrorType.SUCCESS,
          some status, none, attempt⟩

/-- One iteration of the `while True` loop of `send_prompt` (runtime.py
lines 266-398): the terminal response this attempt would report, paired
with the `_should_retry` decision (true exactly when the source would
`sleep` and `continue`).  Unrecognized exceptions are terminal UNKNOWN
with no retry consultation, like the trailing generic handler. -/
def sendStep (cfg : ConnectorConfig) (rc : RetryConfig)
    (transport : Nat → AttemptOutcome) (attempt : Nat) :
    ConnectorResponse × Bool :=
  match transport attempt with
  | AttemptOutcome.response status json text =>
    if status ≥ 400 then
      let et := classifyError (some (status : Int)) none
      (mkHttpErrorResponse cfg status json text et attempt,
       shouldRetry rc et attempt)
    else
      (extractResponse cfg status json attempt, false)
  | AttemptOutcome.raised TransportExc.timeoutExc =>
    (⟨false, none, none,
      some ("Request timed out after " ++ toString cfg.timeout_seconds ++ "s"),
      ErrorType.TIMEOUT, none, none, attempt⟩,
     shouldRetry rc ErrorType.TIMEOUT attempt)
  | AttemptOutcome.raised (TransportExc.requestErr m) =>
    (⟨false, none, none, some ("Request failed: " ++ m),
      ErrorType.NETWORK_ERROR, none, none, attempt⟩,
     shouldRetry rc ErrorType.NETWORK_ERROR attempt)
  | AttemptOutcome.raised (TransportExc.otherExc m) =>
    (⟨false, none, none, some ("Unexpected error: " ++ m), ErrorType.UNKNOWN,
      none, none, attempt⟩, false)

/-- The `while True` loop of `send_prompt` over a transport oracle giving
the outcome of each attempt.  Returns the response together with the
slept delays and the body sent on each attempt.  `fuel` only bounds the
recursion structurally: a retry requires `attempt < max_retries`, so with
`fuel ≥ max_retries - attempt` the fuel-zero arm never cuts a retry short
(`sendLoop_fuel_irrel`) and the loop behaves as the unbounded source
loop, which terminates for the same reason. -/
def sendLoop (cfg : ConnectorConfig) (rc : RetryConfig)
    (transport : Nat → AttemptOutcome) (body : Json) (attempt : Nat) :
    Nat → ConnectorResponse × List ℚ × List Json
  | 0 => ((sendStep cfg rc transport attempt).1, [], [body])
  | f + 1 =>
    let s := sendStep cfg rc transport attempt
    if s.2 then
      let r := sendLoop cfg rc transport body (attempt + 1) f
      (r.1, calcDelay rc attempt :: r.2.1, body :: r.2.2)
    else (s.1, [], [body])

/-- Embedding of `send_prompt` (runtime.py lines 252-398): build url,
headers and body once, before the loop and outside every exception
handler (a fault there propagates as `Except.error`), then run the retry
loop, which resends the one built body. -/
def sendPrompt (cfg : ConnectorConfig) (cred prompt : String)
    (rc : RetryConfig) (transport : Nat → AttemptOutcome) :
    Except PyError (ConnectorResponse × List ℚ × List Json) :=
  match buildRequest cfg cred prompt with
  | Except.error e => Except.error e
  | Except.ok (_url, _headers, body) =>
    Except.ok (sendLoop cfg rc transport body 0 rc.max_retries)

theorem shouldRetry_lt (rc : RetryConfig) (et : ErrorType) (attempt : Nat)
    (h : shouldRetry rc et attempt = true) : attempt < rc.max_retries := by
  rw [shouldRetry] at h
  by_cases h2 : attempt ≥ rc.max_retries
  · simp [h2] at h
  · omega

/-- When the `_should_retry` decision is true, the reported attempt index
is below `max_retries`.  This is the second component of `sendStep`. -/
theorem sendStep_retry_lt (cfg : ConnectorConfig) (rc : RetryConfig)
    (transport : Nat → AttemptOutcome) (attempt : Nat)
    (h : (sendStep cfg rc transport attempt).2 = true) :
    attempt < rc.max_retries := by
  rw [sendStep] at h
  cases htr : transport attempt with
  | response status json text =>
    rw [htr] at h
    by_cases hst : status ≥ 400
    · simp only [hst, if_true] at h
      exact shouldRetry_lt rc _ attempt h
    · simp only [hst, if_false] at h
      simp at h
  | raised e =>
    rw [htr] at h
    cases e with
    | timeoutExc => exact shouldRetry_lt rc _ attempt h
    | requestErr m => exact shouldRetry_lt rc _ attempt h
    | otherExc m => simp at h

/-- Any fuel at least `max_retries - attempt` gives the same run: a retry
requires `attempt < max_retries`, so the fuel-zero arm never cuts a retry
short, and the structural fuel is semantically irrelevant. -/
theorem sendLoop_fuel_irrel (cfg : ConnectorConfig) (rc : RetryConfig)
    (transport : Nat → AttemptOutcome) (body : Json) :
    ∀ f1 f2 attempt, rc.max_retries - attempt ≤ f1 →
      rc.max_retries - attempt ≤ f2 →
      sendLoop cfg rc transport body attempt f1 =
        sendLoop cfg rc transport body attempt f2 := by
  intro f1
  induction f1 with
  | zero =>
    intro f2 attempt h1 h2
    cases f2 with
    | zero => rfl
    | succ g =>
      rw [sendLoop, sendLoop]
      cases hs : (sendStep cfg rc transport attempt).2 with
      | true =>
        exact absurd (sendStep_retry_lt cfg rc transport attempt hs) (by omega)
      | false => simp [hs]
  | succ f ih =>
    intro f2 attempt h1 h2
    cases f2 with
    | zero =>
      rw [sendLoop, sendLoop]
      cases hs : (sendStep cfg rc transport attempt).2 with
      | true =>
        exact absurd (sendStep_retry_lt cfg rc transport attempt hs) (by omega)
      | false => simp [hs]
    | succ g =>
      rw [sendLoop, sendLoop]
      cases hs : (sendStep cfg rc transport attempt).2 with
      | true =>
        have hlt := sendStep_retry_lt cfg rc transport attempt hs
        simp only [hs, if_true]
        rw [ih g (attempt + 1) (by omega) (by omega)]
      | false => simp [hs]

/-- A config whose body construction raises: `static_fields = \x7b"a": true\x7d`
has no placeholder, so `_set_nested_value(body, "a.b", prompt)` runs and
assigning into the non-dict `body["a"]` raises `TypeError` before the
first send. -/
def cfgBad : ConnectorConfig :=
  ⟨"n", "p", "http://x", none,
   some ⟨"/e", "POST", "a.b", Json.obj [("a", Json.bool true)],
     "application/json", []⟩,
   some ⟨"r", none⟩, "1.0", false, 30⟩

/-- C2 as written fails: a fault raised while building the body before the
first send (here a `TypeError` from writing `a.b` into a non-dict static
template) propagates out of `send_prompt` uncaught, because url, headers
and body are built before the `try` block; no `ConnectorResponse` is
returned. -/
theorem c2_cex :
    sendPrompt cfgBad "k" "Hi" defaultRetryConfig
      (fun _ => AttemptOutcome.raised (TransportExc.otherExc "boom")) =
    Except.error PyError.typeError := by
  have hcp : containsPlaceholder (Json.obj [("a", Json.bool true)]) = false := by
    simp only [containsPlaceholder, pyStr, pyRepr, pyReprFields]
    decide
  simp only [sendPrompt, buildRequest, buildHeaders, buildBody, cfgBad, hcp]
  rfl

/-- C2 (amended): once the pre-loop construction of url, headers and body
succeeds, `send_prompt` always returns a `ConnectorResponse` — every
branch of the loop is covered, and an unrecognized fault on an attempt
yields a terminal response with error_type UNKNOWN and no retry; however,
faults raised while building the url, headers or body before the first
send propagate to the caller uncaught. -/
theorem c2_sendPrompt (cfg : ConnectorConfig) (cred prompt : String)
    (rc : RetryConfig) (transport : Nat → AttemptOutcome)
    (u : String) (hdrs : List (String × String)) (b : Json)
    (hbuild : buildRequest cfg cred prompt = Except.ok (u, hdrs, b)) :
    (∃ r sleeps bodies, sendPrompt cfg cred prompt rc transport =
      Except.ok (r, sleeps, bodies)) ∧
    (∀ m, transport 0 = AttemptOutcome.raised (TransportExc.otherExc m) →
      sendPrompt cfg cred prompt rc transport =
        Except.ok
          (⟨false, none, none, some ("Unexpected error: " ++ m),
            ErrorType.UNKNOWN, none, none, 0⟩, [], [b])) := by
  constructor
  · refine ⟨(sendLoop cfg rc transport b 0 rc.max_retries).1,
      (sendLoop cfg rc transport b 0 rc.max_retries).2.1,
      (sendLoop cfg rc transport b 0 rc.max_retries).2.2, ?_⟩
    simp only [sendPrompt, hbuild]
  · intro m htr
    simp only [sendPrompt, hbuild]
    cases hm : rc.max_retries with
    | zero =>
      rw [sendLoop]
      simp [sendStep, htr]
    | succ f =>
      rw [sendLoop]
      simp [sendStep, htr]

/-- A well-formed config used to witness the amended C2. -/
def cfgGood : ConnectorConfig :=
  ⟨"n", "p", "http://x", none,
   some ⟨"/e", "POST", "q", Json.obj [], "application/json", []⟩,
   some ⟨"r", none⟩, "1.0", false, 30⟩

/-- Witness for `c2_sendPrompt`: with every attempt raising an
unrecognized exception, one call still returns a terminal UNKNOWN
response. -/
theorem c2_sendPrompt_witness :
    sendPrompt cfgGood "k" "Hi" defaultRetryConfig
      (fun _ => AttemptOutcome.raised (TransportExc.otherExc "boom")) =
    Except.ok
      (⟨false, none, none, some ("Unexpected error: " ++ "boom"),
        ErrorType.UNKNOWN, none, none, 0⟩, [],
       [Json.obj [("q", Json.str "Hi")]]) :=
  (c2_sendPrompt cfgGood "k" "Hi" defaultRetryConfig
    (fun _ => AttemptOutcome.raised (TransportExc.otherExc "boom"))
    "http://x/e" [("Content-Type", "application/json")]
    (Json.obj [("q", Json.str "Hi")])
    (by
      have hcp : containsPlaceholder (Json.obj []) = false := by
        simp only [containsPlaceholder, pyStr, pyRepr, pyReprFields]
        decide
      simp only [buildRequest, buildHeaders, buildBody, cfgGood, hcp]
      rfl)).2 "boom" rfl

/-- The static template of the C5 retry scenario. -/
def static5 : Json := Json.obj [("model", Json.str "m")]

/-- The config of the C5 retry scenario. -/
def cfg5 : ConnectorConfig :=
  ⟨"n", "p", "http://x", none,
   some ⟨"/v1/chat", "POST", "q", static5, "application/json", []⟩,
   some ⟨"reply", none⟩, "1.0", false, 30⟩

/-- The body built once from `static5` with prompt `Hi`. -/
def body5 : Json := Json.obj [("model", Json.str "m"), ("q", Json.str "Hi")]

/-- A transport stub yielding 429, 429, then 200 with a body matching the
response mapping. -/
def transport5 : Nat → AttemptOutcome := fun n =>
  match n with
  | 0 => AttemptOutcome.response 429 (Except.ok (Json.obj [])) ""
  | 1 => AttemptOutcome.response 429 (Except.ok (Json.obj [])) ""
  | _ =>
    AttemptOutcome.response 200
      (Except.ok (Json.obj [("reply", Json.str "ok")])) ""

/-- C5: under the default retry policy (max_retries 3), a transport
yielding 429, 429, then 200 makes `send_prompt` succeed with
`retries = 2`, sleeping `delay(0)` then `delay(1)` (which are
`base_delay = 1` and `base_delay * growth = 2` seconds); the request body
is built exactly once before the loop and the identical body is sent on
all three attempts. -/
theorem c5_retry_scenario :
    sendPrompt cfg5 "k" "Hi" defaultRetryConfig transport5 =
      Except.ok
        (⟨true, some "ok", some (Json.obj [("reply", Json.str "ok")]), none,
          ErrorType.SUCCESS, some 200, none, 2⟩,
         [calcDelay defaultRetryConfig 0, calcDelay defaultRetryConfig 1],
         [body5, body5, body5]) ∧
    calcDelay defaultRetryConfig 0 = 1 ∧ calcDelay defaultRetryConfig 1 = 2 := by
  refine ⟨?_, ?_, ?_⟩
  · have hcp : containsPlaceholder static5 = false := by
      simp only [containsPlaceholder, static5, pyStr, pyRepr, pyReprFields]
      decide
    simp only [sendPrompt, buildRequest, buildHeaders, buildBody, cfg5,
      static5, body5, hcp]
    rfl
  · rw [calcDelay]
    norm_num [defaultRetryConfig]
  · rw [calcDelay]
    norm_num [defaultRetryConfig]

theorem getNestedParts_null (parts : List String) :
    getNestedParts Json.null parts = Json.null := by
  cases parts with
  | nil => rfl
  | cons p rest => simp [getNestedParts, Json.isNull]

/-- A missing location and a stored null are indistinguishable to
`_get_nested_value`: an absent path also reads as null. -/
theorem pathPresent_false_null (parts : List String) :
    ∀ j : Json, pathPresent j parts = false →
      getNestedParts j parts = Json.null := by
  induction parts with
  | nil => intro j h; simp [pathPresent] at h
  | cons p rest ih =>
    intro j h
    cases j with
    | null => exact getNestedParts_null _
    | bool b =>
      by_cases hd : isDigitStr p = true <;>
        simp [getNestedParts, Json.isNull, hd]
    | num n =>
      by_cases hd : isDigitStr p = true <;>
        simp [getNestedParts, Json.isNull, hd]
    | str s =>
      by_cases hd : isDigitStr p = true <;>
        simp [getNestedParts, Json.isNull, hd]
    | arr xs =>
      by_cases hd : isDigitStr p = true
      · simp only [pathPresent, hd, if_true] at h
        by_cases hb : digitVal p < xs.length
        · rw [dif_pos hb] at h
          simp only [getNestedParts, Json.isNull, hd, if_true,
            Bool.false_eq_true, if_false]
          rw [dif_pos hb]
          exact ih _ h
        · simp [getNestedParts, Json.isNull, hd, hb]
      · simp [getNestedParts, Json.isNull, hd]
    | obj fs =>
      by_cases hd : isDigitStr p = true
      · simp [getNestedParts, Json.isNull, hd]
      · simp only [pathPresent, hd, Bool.false_eq_true, if_false] at h
        cases hf : jfind fs p with
        | some child =>
          rw [hf] at h
          simp only [getNestedParts, Json.isNull, hd, Bool.false_eq_true,
            if_false, hf, Option.getD]
          exact ih _ h
        | none =>
          simp only [getNestedParts, Json.isNull, hd, Bool.false_eq_true,
            if_false, hf, Option.getD]
          exact getNestedParts_null rest

/-- C10: on a 2xx response whose decoded body contains the configured
`response_field` path with a stored JSON null, `send_prompt` returns
failure with error_type PARSE_ERROR (no retry, `retries = 0`); and in
general `_get_nested_value` returns null both for a present-but-null
location and for an absent one, so the two are indistinguishable to
extraction. -/
theorem c10_parse_error_on_null (cfg : ConnectorConfig)
    (rm : ResponseMapping) (cred prompt : String) (rc : RetryConfig)
    (transport : Nat → AttemptOutcome) (d : Json) (t : String)
    (u : String) (hdrs : List (String × String)) (b : Json)
    (hresp : cfg.response = some rm)
    (htr : transport 0 = AttemptOutcome.response 200 (Except.ok d) t)
    (_hpres : pathPresent d (splitDot rm.response_field) = true)
    (hnull : getNestedParts d (splitDot rm.response_field) = Json.null)
    (hbuild : buildRequest cfg cred prompt = Except.ok (u, hdrs, b)) :
    sendPrompt cfg cred prompt rc transport =
      Except.ok
        (⟨false, none, some d,
          some ("Could not extract response from path '" ++
            rm.response_field ++ "'"),
          ErrorType.PARSE_ERROR, some 200, none, 0⟩, [], [b]) ∧
    (∀ d2 parts, pathPresent d2 parts = false →
      getNestedParts d2 parts = Json.null) := by
  constructor
  · simp only [sendPrompt, hbuild]
    have hstep : sendStep cfg rc transport 0 =
        (extractResponse cfg 200 (Except.ok d) 0, false) := by
      rw [sendStep, htr]
      norm_num
    have hex : extractResponse cfg 200 (Except.ok d) 0 =
        ⟨false, none, some d,
          some ("Could not extract response from path '" ++
            rm.response_field ++ "'"),
          ErrorType.PARSE_ERROR, some 200, none, 0⟩ := by
      rw [extractResponse, hresp]
      simp [hnull, Json.isNull]
    cases hm : rc.max_retries with
    | zero => rw [sendLoop, hstep, hex]
    | succ f =>
      rw [sendLoop, hstep]
      simp only [Bool.false_eq_true, if_false]
      rw [hex]
  · exact fun d2 parts h => pathPresent_false_null parts d2 h

/-- Witness for `c10_parse_error_on_null` on `cfgGood` with body
`\x7b"r": null\x7d`. -/
theorem c10_parse_error_on_null_witness :
    sendPrompt cfgGood "k" "Hi" defaultRetryConfig
      (fun _ => AttemptOutcome.response 200
        (Except.ok (Json.obj [("r", Json.null)])) "") =
    Except.ok
      (⟨false, none, some (Json.obj [("r", Json.null)]),
        some ("Could not extract response from path '" ++ "r" ++ "'"),
        ErrorType.PARSE_ERROR, some 200, none, 0⟩, [],
       [Json.obj [("q", Json.str "Hi")]]) :=
  c10_parse_error_on_null cfgGood ⟨"r", none⟩ "k" "Hi" defaultRetryConfig
    (fun _ => AttemptOutcome.response 200
      (Except.ok (Json.obj [("r", Json.null)])) "")
    (Json.obj [("r", Json.null)]) "" "http://x/e"
    [("Content-Type", "application/json")] (Json.obj [("q", Json.str "Hi")])
    rfl rfl (by decide) rfl
    (by
      have hcp : containsPlaceholder (Json.obj []) = false := by
        simp only [containsPlaceholder, pyStr, pyRepr, pyReprFields]
        decide
      simp only [buildRequest, buildHeaders, buildBody, cfgGood, hcp]
      rfl) |>.1

/-! ## Config loading (`ConnectorConfig.from_dict`) -/

/-- Model of `data.get(k)` on a dict (default `None`); on a non-dict it
raises `AttributeError`. -/
def dget (data : Json) (k : String) : Except PyError Json :=
  match data with
  | Json.obj fs => Except.ok ((jfind fs k).getD Json.null)
  | _ => Except.error PyError.attributeError

/-- Model of `data.get(k, d)` on a dict: the stored value (even `None`)
when the key is present, else the default. -/
def dgetD (data : Json) (k : String) (d : Json) : Except PyError Json :=
  match data with
  | Json.obj fs => Except.ok ((jfind fs k).getD d)
  | _ => Except.error PyError.attributeError

/-- Model of `data[k]`: `KeyError` when absent, `TypeError` on a non-dict. -/
def dindex (data : Json) (k : String) : Except PyError Json :=
  match data with
  | Json.obj fs =>
    match jfind fs k with
    | some v => Except.ok v
    | none => Except.error (PyError.keyError k)
  | _ => Except.error PyError.typeError

/-- Coerces a stored value into the string the dataclass field is used as.
Python stores values untyped; the configs the loader reads hold strings in
these positions, and the embedding types them as such. -/
def asStr (j : Json) : Except PyError String :=
  match j with
  | Json.str s => Except.ok s
  | _ => Except.error PyError.typeError

/-- Coerces a stored value into a Bool dataclass field. -/
def asBool (j : Json) : Except PyError Bool :=
  match j with
  | Json.bool b => Except.ok b
  | _ => Except.error PyError.typeError

/-- Coerces a stored value into an Int dataclass field. -/
def asInt (j : Json) : Except PyError Int :=
  match j with
  | Json.num n => Except.ok n
  | _ => Except.error PyError.typeError

/-- Coerces a stored extra-headers dict into its string pairs. -/
def asHeaders (j : Json) : Except PyError (List (String × String)) :=
  match j with
  | Json.obj fs =>
    fs.foldr
      (fun kv acc =>
        match kv.2, acc with
        | Json.str s, Except.ok rest => Except.ok ((kv.1, s) :: rest)
        | _, _ => Except.error PyError.typeError)
      (Except.ok [])
  | _ => Except.error PyError.typeError

/-- The `auth` block of `from_dict` (config_schema.py lines 115-121):
entered only when `data.get("auth")` is truthy. -/
def parseAuth (data : Json) : Except PyError (Option AuthConfig) := do
  let authJ ← dget data "auth"
  if jtruthy authJ then do
    let t ← dindex authJ "type" >>= asStr
    let k ← dindex authJ "key_name" >>= asStr
    let v ← dindex authJ "value_template" >>= asStr
    pure (some (AuthConfig.mk t k v))
  else
    pure none

/-- The `request` block of `from_dict` (config_schema.py lines 123-132):
entered only when `data.get("request")` is truthy; otherwise the loaded
config simply carries `request = None`. -/
def parseRequest (data : Json) : Except PyError (Option RequestMapping) := do
  let reqJ ← dget data "request"
  if jtruthy reqJ then do
    let endpoint ← dindex reqJ "endpoint" >>= asStr
    let method ← dgetD reqJ "method" (Json.str "POST") >>= asStr
    let prompt_field ← dindex reqJ "prompt_field" >>= asStr
    let static_fields ← dgetD reqJ "static_fields" (Json.obj [])
    let content_type ←
      dgetD reqJ "content_type" (Json.str "application/json") >>= asStr
    let extra_headers ← dgetD reqJ "extra_headers" (Json.obj []) >>= asHeaders
    pure (some (RequestMapping.mk endpoint method prompt_field static_fields
      content_type extra_headers))
  else
    pure none

/-- The `response` block of `from_dict` (config_schema.py lines 134-139):
entered only when `data.get("response")` is truthy. -/
def parseResponse (data : Json) : Except PyError (Option ResponseMapping) := do
  let respJ ← dget data "response"
  if jtruthy respJ then do
    let rf ← dindex respJ "response_field" >>= asStr
    let efJ ← dget respJ "error_field"
    let ef ←
      match efJ with
      | Json.null => pure none
      | Json.str s => pure (some s)
      | _ => Except.error PyError.typeError
    pure (some (ResponseMapping.mk rf ef))
  else
    pure none

/-- Embedding of `ConnectorConfig.from_dict` (config_schema.py lines
112-151).  There is no rejection step: absent or null optional sections
yield `none` fields. -/
def fromDict (data : Json) : Except PyError ConnectorConfig := do
  let auth ← parseAuth data
  let request ← parseRequest data
  let response ← parseResponse data
  let name ← dindex data "name" >>= asStr
  let provider ← dindex data "provider" >>= asStr
  let version ← dgetD data "version" (Json.str "1.0") >>= asStr
  let base_url ← dindex data "base_url" >>= asStr
  let streaming ← dgetD data "streaming" (Json.bool false) >>= asBool
  let timeout_seconds ← dgetD data "timeout_seconds" (Json.num 30) >>= asInt
  pure ⟨name, provider, base_url, auth, request, response, version,
    streaming, timeout_seconds⟩

theorem except_bind_ok {α β : Type} {x : Except PyError α}
    {f : α → Except PyError β} {b : β} (h : (x >>= f) = Except.ok b) :
    ∃ a, x = Except.ok a ∧ f a = Except.ok b := by
  cases x with
  | ok a => exact ⟨a, rfl, h⟩
  | error e => simp [Bind.bind, Except.bind] at h

/-- C3 as written fails: `from_dict` on a config dict with no `request`
and no `response` section succeeds and yields a `ConnectorConfig` with
`request = None` and `response = None`; nothing is rejected before call
time. -/
theorem c3_cex :
    fromDict (Json.obj [("name", Json.str "n"), ("provider", Json.str "p"),
      ("base_url", Json.str "u")]) =
    Except.ok ⟨"n", "p", "u", none, none, none, "1.0", false, 30⟩ := rfl

/-- C3 (amended): the loader performs no rejection: whenever `from_dict`
succeeds, the loaded config has `request = None` exactly when the stored
`request` value is absent, null, or otherwise falsy, and likewise for
`response`; in particular a file lacking those sections loads into a
config with `request = None` and `response = None` handed to the
Connector (the failure surfaces only at call time). -/
theorem c3_loader (fs : List (String × Json)) (c : ConnectorConfig)
    (h : fromDict (Json.obj fs) = Except.ok c) :
    (c.request = none ↔
      jtruthy ((jfind fs "request").getD Json.null) = false) ∧
    (c.response = none ↔
      jtruthy ((jfind fs "response").getD Json.null) = false) := by
  rw [fromDict] at h
  obtain ⟨auth, hauth, h⟩ := except_bind_ok h
  obtain ⟨request, hreq, h⟩ := except_bind_ok h
  obtain ⟨response, hresp, h⟩ := except_bind_ok h
  obtain ⟨name, hname, h⟩ := except_bind_ok h
  obtain ⟨provider, hprov, h⟩ := except_bind_ok h
  obtain ⟨version, hver, h⟩ := except_bind_ok h
  obtain ⟨base_url, hbase, h⟩ := except_bind_ok h
  obtain ⟨streaming, hstr, h⟩ := except_bind_ok h
  obtain ⟨timeout, htim, h⟩ := except_bind_ok h
  simp only [pure, Except.pure, Except.ok.injEq] at h
  subst h
  constructor
  · rw [parseRequest] at hreq
    obtain ⟨reqJ, hget, hreq⟩ := except_bind_ok hreq
    simp only [dget, Except.ok.injEq] at hget
    subst hget
    cases ht : jtruthy ((jfind fs "request").getD Json.null) with
    | false =>
      rw [ht] at hreq
      simp only [Bool.false_eq_true, if_false, pure, Except.pure,
        Except.ok.injEq] at hreq
      subst hreq
      simp
    | true =>
      rw [ht] at hreq
      simp only [if_true] at hreq
      obtain ⟨e1, he1, hreq⟩ := except_bind_ok hreq
      obtain ⟨e2, he2, hreq⟩ := except_bind_ok hreq
      obtain ⟨e3, he3, hreq⟩ := except_bind_ok hreq
      obtain ⟨e4, he4, hreq⟩ := except_bind_ok hreq
      obtain ⟨e5, he5, hreq⟩ := except_bind_ok hreq
      obtain ⟨e6, he6, hreq⟩ := except_bind_ok hreq
      simp only [pure, Except.pure, Except.ok.injEq] at hreq
      subst hreq
      simp
  · rw [parseResponse] at hresp
    obtain ⟨respJ, hget, hresp⟩ := except_bind_ok hresp
    simp only [dget, Except.ok.injEq] at hget
    subst hget
    cases ht : jtruthy ((jfind fs "response").getD Json.null) with
    | false =>
      rw [ht] at hresp
      simp only [Bool.false_eq_true, if_false, pure, Except.pure,
        Except.ok.injEq] at hresp
      subst hresp
      simp
    | true =>
      rw [ht] at hresp
      simp only [if_true] at hresp
      obtain ⟨e1, he1, hresp⟩ := except_bind_ok hresp
      obtain ⟨e2, he2, hresp⟩ := except_bind_ok hresp
      cases e2 with
      | null =>
        simp only [bind, Except.bind, pure, Except.pure, Except.ok.injEq] at hresp
        subst hresp
        simp
      | str s =>
        simp only [bind, Except.bind, pure, Except.pure, Except.ok.injEq] at hresp
        subst hresp
        simp
      | bool b => simp [bind, Except.bind, pure, Except.pure] at hresp
      | num n => simp [bind, Except.bind, pure, Except.pure] at hresp
      | arr xs => simp [bind, Except.bind, pure, Except.pure] at hresp
      | obj fs2 => simp [bind, Except.bind, pure, Except.pure] at hresp

/-- Witness for `c3_loader` at a concrete three-field config dict. -/
theorem c3_loader_witness :
    ((⟨"n", "p", "u", none, none, none, "1.0", false, 30⟩ :
        ConnectorConfig).request = none ↔
      jtruthy ((jfind [("name", Json.str "n"), ("provider", Json.str "p"),
        ("base_url", Json.str "u")] "request").getD Json.null) = false) ∧
    ((⟨"n", "p", "u", none, none, none, "1.0", false, 30⟩ :
        ConnectorConfig).response = none ↔
      jtruthy ((jfind [("name", Json.str "n"), ("provider", Json.str "p"),
        ("base_url", Json.str "u")] "response").getD Json.null) = false) :=
  c3_loader [("name", Json.str "n"), ("provider", Json.str "p"),
    ("base_url", Json.str "u")] ⟨"n", "p", "u", none, none, none, "1.0",
    false, 30⟩ rfl

/-! ## Endpoint discovery (`src/openapi_parser.py`) -/

/-- `OpenAPIParser.PATH_KEYWORDS`, in source order. -/
def PATH_KEYWORDS : List (String × ℚ) :=
  [("chat", 10), ("completions", 8), ("completion", 8), ("messages", 9),
   ("message", 7), ("generate", 6), ("inference", 5), ("converse", 7),
   ("ask", 4)]

/-- `OpenAPIParser.NEGATIVE_KEYWORDS`, in source order. -/
def NEGATIVE_KEYWORDS : List (String × ℚ) :=
  [("list", -5), ("delete", -10), ("get", -3), ("models", -5),
   ("files", -10), ("embeddings", -8), ("images", -8), ("audio", -8),
   ("fine-tune", -10), ("batch", -8)]

/-- `OpenAPIParser.REQUEST_FIELD_KEYWORDS`, in source order. -/
def REQUEST_FIELD_KEYWORDS : List (String × ℚ) :=
  [("messages", 10), ("message", 8), ("prompt", 9), ("content", 6),
   ("input", 5), ("text", 5), ("query", 4)]

/-- Model of Python `str.lower` on the ASCII identifiers the parser
handles. -/
def lowerStr (s : String) : String :=
  String.mk (s.data.map Char.toLower)

/-- First weight bound to a keyword in a weight table (Python dict
lookup). -/
def kwFind (tbl : List (String × ℚ)) (k : String) : Option ℚ :=
  match tbl with
  | [] => none
  | (k2, w) :: rest => if k2 = k then some w else kwFind rest k

/-- Embedding of `OpenAPIParser.score_path` (openapi_parser.py lines
158-171): positive path keywords then negative keywords, each matched as
a substring of the lowercased path. -/
def scorePath (path : String) : ℚ :=
  let pl := lowerStr path
  let s1 := PATH_KEYWORDS.foldl
    (fun sc kw => if strContains pl kw.1 then sc + kw.2 else sc) 0
  NEGATIVE_KEYWORDS.foldl
    (fun sc kw => if strContains pl kw.1 then sc + kw.2 else sc) s1

/-- The operation-id bonus loop of `find_chat_endpoints` (lines 188-191):
each path keyword found in the lowered operation id adds half its
weight. -/
def addOpIdBonus (score : ℚ) (opId : String) : ℚ :=
  PATH_KEYWORDS.foldl
    (fun sc kw => if strContains opId kw.1 then sc + kw.2 * (0.5 : ℚ) else sc)
    score

/-- The summary/description bonus loop (lines 193-198): each path keyword
found in the lowered summary or description adds 0.3 of its weight. -/
def addSummaryBonus (score : ℚ) (summary descr : String) : ℚ :=
  PATH_KEYWORDS.foldl
    (fun sc kw =>
      if strContains summary kw.1 || strContains descr kw.1 then
        sc + kw.2 * (0.3 : ℚ)
      else sc)
    score

/-- Model of `operation.get(k, '').lower()`: default empty string, then
`.lower()`, which raises on a non-string stored value. -/
def getLowerField (op : Json) (k : String) : Except PyError String := do
  let v ← dgetD op k (Json.str "")
  match v with
  | Json.str s => pure (lowerStr s)
  | _ => Except.error PyError.attributeError

/-- Model of Python `k in container` for the containers met here: key
membership for dicts, element equality for lists, substring for strings;
anything else raises `TypeError`. -/
def pyIn (k : String) (container : Json) : Except PyError Bool :=
  match container with
  | Json.obj fs => Except.ok (jfind fs k).isSome
  | Json.arr xs =>
    Except.ok (xs.any fun x =>
      match x with
      | Json.str s => s = k
      | _ => false)
  | Json.str s => Except.ok (strContains s k)
  | _ => Except.error PyError.typeError

/-- Whether one string starts with another (Python `startswith`). -/
def strStarts (s pre : String) : Bool :=
  leadMatch pre.data s.data

/-- Character-list splitter for `splitSlash`. -/
def splitSlashGo (acc : List Char) : List Char → List String
  | [] => [String.mk acc.reverse]
  | c :: rest =>
    if c = '/' then String.mk acc.reverse :: splitSlashGo [] rest
    else splitSlashGo (c :: acc) rest

/-- Model of Python `s.split("/")`. -/
def splitSlash (s : String) : List String := splitSlashGo [] s.data

/-- The pointer walk of `resolve_ref` (lines 144-150): step through dicts
with default `\x7b\x7d`; a non-dict on the way returns `\x7b\x7d`
immediately. -/
def refWalk (cur : Json) : List String → Json
  | [] => cur
  | p :: rest =>
    match cur with
    | Json.obj fs => refWalk ((jfind fs p).getD (Json.obj [])) rest
    | _ => Json.obj []

/-- Embedding of `OpenAPIParser.resolve_ref` (lines 138-150): only local
`#/...` pointers resolve; others degrade to `\x7b\x7d`; a non-string ref
raises on `.startswith`. -/
def resolveRef (spec : Json) (ref : Json) : Except PyError Json :=
  match ref with
  | Json.str r =>
    if strStarts r "#/" then
      Except.ok (refWalk spec (splitSlash (String.mk (r.data.drop 2))))
    else Except.ok (Json.obj [])
  | _ => Except.error PyError.attributeError

/-- Embedding of `OpenAPIParser.get_schema` (lines 152-156). -/
def getSchema (spec : Json) (sor : Json) : Except PyError Json := do
  let b ← pyIn "$ref" sor
  if b then do
    let r ← dindex sor "$ref"
    resolveRef spec r
  else pure sor

/-- The `['application/json', '*/*']` content loop shared by
`_get_request_schema` and `_get_response_schema` (lines 236-241 and
249-254), unrolled. -/
def schemaFromContent (spec content : Json) : Except PyError (Option Json) := do
  let b1 ← pyIn "application/json" content
  if b1 then do
    let c ← dindex content "application/json"
    let schema ← dgetD c "schema" (Json.obj [])
    (getSchema spec schema).map some
  else do
    let b2 ← pyIn "*/*" content
    if b2 then do
      let c ← dindex content "*/*"
      let schema ← dgetD c "schema" (Json.obj [])
      (getSchema spec schema).map some
    else pure none

/-- Embedding of `OpenAPIParser._get_request_schema` (lines 231-241). -/
def getRequestSchema (spec op : Json) : Except PyError (Option Json) := do
  let requestBody ← dgetD op "requestBody" (Json.obj [])
  let content ← dgetD requestBody "content" (Json.obj [])
  schemaFromContent spec content

/-- Embedding of `OpenAPIParser._get_response_schema` (lines 243-254):
`responses.get('200', responses.get('201', \x7b\x7d))`. -/
def getResponseSchema (spec op : Json) : Except PyError (Option Json) := do
  let responses ← dgetD op "responses" (Json.obj [])
  let r201 ← dgetD responses "201" (Json.obj [])
  let success ← dgetD responses "200" r201
  let content ← dgetD success "content" (Json.obj [])
  schemaFromContent spec content

/-- One collected required header: the raw `name`, example `value` and
`description` values, untyped as in the source dicts. -/
def RequiredHeader := Json × Json × Json

/-- The parameter loop of `_get_required_headers` (lines 256-266). -/
def collectHeaders : List Json → Except PyError (List RequiredHeader)
  | [] => Except.ok []
  | param :: rest => do
    let inVal ← dget param "in"
    let req ← dgetD param "required" (Json.bool false)
    if (match inVal with
        | Json.str s => s = "header"
        | _ => false) && jtruthy req then do
      let name ← dget param "name"
      let schema ← dgetD param "schema" (Json.obj [])
      let ex ← dgetD schema "example" (Json.str "")
      let desc ← dgetD param "description" (Json.str "")
      let rest2 ← collectHeaders rest
      pure ((name, ex, desc) :: rest2)
    else collectHeaders rest

/-- Embedding of `OpenAPIParser._get_required_headers`; `parameters` is a
list in every OpenAPI document (iterating a non-list is not exercised and
reported as a type error). -/
def getRequiredHeaders (op : Json) : Except PyError (List RequiredHeader) := do
  let params ← dgetD op "parameters" (Json.arr [])
  match params with
  | Json.arr ps => collectHeaders ps
  | _ => Except.error PyError.typeError

/-- The request-schema property bonus of `find_chat_endpoints` (lines
204-209): entered only when the schema is truthy; each property name
whose lowercase form is a request-field keyword adds half that keyword
weight.  `properties` is an object in every OpenAPI document (iterating a
non-dict is not exercised and reported as a type error). -/
def addSchemaBonus (score : ℚ) (reqSchema : Option Json) :
    Except PyError ℚ :=
  match reqSchema with
  | none => Except.ok score
  | some s =>
    if jtruthy s then do
      let props ← dgetD s "properties" (Json.obj [])
      match props with
      | Json.obj pfs =>
        Except.ok (pfs.foldl
          (fun sc kv =>
            match kwFind REQUEST_FIELD_KEYWORDS (lowerStr kv.1) with
            | some w => sc + w * (0.5 : ℚ)
            | none => sc)
          score)
      | _ => Except.error PyError.typeError
    else Except.ok score

/-- Embedding of `EndpointCandidate` (openapi_parser.py lines 23-34),
with the score as an exact rational. -/
structure EndpointCandidate where
  path : String
  method : String
  operation_id : String
  summary : String
  description : String
  score : ℚ
  request_schema : Option Json
  response_schema : Option Json
  required_headers : List RequiredHeader

/-- The candidate built for one POST operation by `find_chat_endpoints`
(lines 184-225), in source evaluation order. -/
def mkCandidate (spec : Json) (path : String) (operation : Json) :
    Except PyError EndpointCandidate := do
  let score0 := scorePath path
  let opIdL ← getLowerField operation "operationId"
  let score1 := addOpIdBonus score0 opIdL
  let summaryL ← getLowerField operation "summary"
  let descrL ← getLowerField operation "description"
  let score2 := addSummaryBonus score1 summaryL descrL
  let reqSchema ← getRequestSchema spec operation
  let respSchema ← getResponseSchema spec operation
  let score3 ← addSchemaBonus score2 reqSchema
  let headers ← getRequiredHeaders operation
  let opId ← dgetD operation "operationId" (Json.str "") >>= asStr
  let summary ← dgetD operation "summary" (Json.str "") >>= asStr
  let descr ← dgetD operation "description" (Json.str "") >>= asStr
  pure ⟨path, "POST", opId, summary, descr, score3, reqSchema, respSchema,
    headers⟩

/-- The path loop of `find_chat_endpoints` (lines 177-225): skip path
items without a `post` entry, build the candidate, keep it only when its
score is strictly positive, preserving document order. -/
def collectCandidates (spec : Json) :
    List (String × Json) → Except PyError (List EndpointCandidate)
  | [] => Except.ok []
  | (path, item) :: rest => do
    let hasPost ← pyIn "post" item
    if hasPost then do
      let op ← dindex item "post"
      let cand ← mkCandidate spec path op
      let rest2 ← collectCandidates spec rest
      if 0 < cand.score then pure (cand :: rest2) else pure rest2
    else collectCandidates spec rest

/-- Stable insertion into a score-descending list: the new candidate goes
before the first element whose score it meets or exceeds, i.e. after
every earlier-inserted element of strictly greater score and before
earlier elements of equal score — which, combined with `sortDesc`
processing the document-order list head-last, reproduces Python
`list.sort(key=score, reverse=True)`: descending and stable. -/
def insertDesc (c : EndpointCandidate) :
    List EndpointCandidate → List EndpointCandidate
  | [] => [c]
  | y :: ys => if y.score ≤ c.score then c :: y :: ys else y :: insertDesc c ys

/-- Stable descending sort by score, the model of line 228. -/
def sortDesc : List EndpointCandidate → List EndpointCandidate
  | [] => []
  | x :: xs => insertDesc x (sortDesc xs)

/-- The path items of the document, as `__init__` reads them
(`spec.get('paths', \x7b\x7d)`). -/
def pathsList (spec : Json) : List (String × Json) :=
  match spec with
  | Json.obj fs =>
    match (jfind fs "paths").getD (Json.obj []) with
    | Json.obj pfs => pfs
    | _ => []
  | _ => []

/-- Embedding of `OpenAPIParser.find_chat_endpoints` (lines 173-229). -/
def findChatEndpoints (spec : Json) :
    Except PyError (List EndpointCandidate) := do
  let paths ← dgetD spec "paths" (Json.obj [])
  match paths with
  | Json.obj pfs => (collectCandidates spec pfs).map sortDesc
  | _ => Except.error PyError.attributeError

theorem mem_insertDesc (c a : EndpointCandidate)
    (l : List EndpointCandidate) :
    a ∈ insertDesc c l ↔ a = c ∨ a ∈ l := by
  induction l with
  | nil => simp [insertDesc]
  | cons y ys ih =>
    rw [insertDesc]
    by_cases h : y.score ≤ c.score
    · simp only [h, if_true, List.mem_cons]
    · simp only [h, if_false, List.mem_cons, ih]
      tauto

theorem mem_sortDesc (a : EndpointCandidate) (l : List EndpointCandidate) :
    a ∈ sortDesc l ↔ a ∈ l := by
  induction l with
  | nil => simp [sortDesc]
  | cons x xs ih =>
    simp [sortDesc, mem_insertDesc, ih, List.mem_cons]

theorem insertDesc_sorted (c : EndpointCandidate)
    (l : List EndpointCandidate)
    (h : List.Pairwise (fun a b => b.score ≤ a.score) l) :
    List.Pairwise (fun a b => b.score ≤ a.score) (insertDesc c l) := by
  induction l with
  | nil => simp [insertDesc]
  | cons y ys ih =>
    rw [insertDesc]
    rcases List.pairwise_cons.mp h with ⟨hy, hys⟩
    by_cases hc : y.score ≤ c.score
    · simp only [hc, if_true]
      refine List.Pairwise.cons ?_ h
      intro b hb
      rcases List.mem_cons.mp hb with rfl | hb
      · exact hc
      · exact le_trans (hy b hb) hc
    · simp only [hc, if_false]
      refine List.Pairwise.cons ?_ (ih hys)
      intro b hb
      rcases (mem_insertDesc c b ys).mp hb with rfl | hb
      · exact le_of_not_le hc
      · exact hy b hb

theorem sortDesc_sorted (l : List EndpointCandidate) :
    List.Pairwise (fun a b => b.score ≤ a.score) (sortDesc l) := by
  induction l with
  | nil => simp [sortDesc]
  | cons x xs ih => exact insertDesc_sorted x (sortDesc xs) ih

theorem filter_insertDesc (s : ℚ) (c : EndpointCandidate)
    (l : List EndpointCandidate) :
    (insertDesc c l).filter (fun x => decide (x.score = s)) =
      if c.score = s then
        c :: l.filter (fun x => decide (x.score = s))
      else l.filter (fun x => decide (x.score = s)) := by
  induction l with
  | nil =>
    by_cases h : c.score = s <;> simp [insertDesc, List.filter, h]
  | cons y ys ih =>
    rw [insertDesc]
    by_cases hc : y.score ≤ c.score
    · simp only [hc, if_true]
      by_cases h : c.score = s <;> simp [List.filter, h]
    · simp only [hc, if_false]
      by_cases hy : y.score = s
      · have hcs : ¬ c.score = s := by
          intro hh
          exact hc (by rw [hy, hh])
        simp [List.filter, hy, hcs, ih]
      · by_cases hcs : c.score = s <;> simp [List.filter, hy, hcs, ih]

/-- Candidates of equal score appear in the sorted output in their
original relative order: the equal-score subsequence is unchanged by the
sort.  This is tie stability, as Python `list.sort` guarantees. -/
theorem filter_sortDesc (s : ℚ) (l : List EndpointCandidate) :
    (sortDesc l).filter (fun x => decide (x.score = s)) =
      l.filter (fun x => decide (x.score = s)) := by
  induction l with
  | nil => simp [sortDesc]
  | cons x xs ih =>
    rw [sortDesc, filter_insertDesc]
    by_cases h : x.score = s <;> simp [List.filter, h, ih]

theorem mkCandidate_path (spec : Json) (p : String) (op : Json)
    (c : EndpointCandidate) (h : mkCandidate spec p op = Except.ok c) :
    c.path = p := by
  rw [mkCandidate] at h
  obtain ⟨a1, h1, h⟩ := except_bind_ok h
  obtain ⟨a2, h2, h⟩ := except_bind_ok h
  obtain ⟨a3, h3, h⟩ := except_bind_ok h
  obtain ⟨a4, h4, h⟩ := except_bind_ok h
  obtain ⟨a5, h5, h⟩ := except_bind_ok h
  obtain ⟨a6, h6, h⟩ := except_bind_ok h
  obtain ⟨a7, h7, h⟩ := except_bind_ok h
  obtain ⟨a8, h8, h⟩ := except_bind_ok h
  obtain ⟨a9, h9, h⟩ := except_bind_ok h
  obtain ⟨a10, h10, h⟩ := except_bind_ok h
  simp only [pure, Except.pure, Except.ok.injEq] at h
  subst h
  rfl

theorem collect_sound (spec : Json) :
    ∀ pfs cands, collectCandidates spec pfs = Except.ok cands →
      ∀ c ∈ cands, 0 < c.score ∧
        ∃ item, (c.path, item) ∈ pfs ∧ pyIn "post" item = Except.ok true := by
  intro pfs
  induction pfs with
  | nil =>
    intro cands h c hc
    rw [collectCandidates] at h
    simp only [Except.ok.injEq] at h
    subst h
    simp at hc
  | cons pi rest ih =>
    intro cands h c hc
    obtain ⟨p, item⟩ := pi
    rw [collectCandidates] at h
    obtain ⟨hp, hhp, h⟩ := except_bind_ok h
    cases hp with
    | false =>
      simp only [Bool.false_eq_true, if_false] at h
      obtain ⟨hsc, item2, hm, hp2⟩ := ih cands h c hc
      exact ⟨hsc, item2, List.mem_cons_of_mem _ hm, hp2⟩
    | true =>
      simp only [if_true] at h
      obtain ⟨op, hop, h⟩ := except_bind_ok h
      obtain ⟨cand, hcand, h⟩ := except_bind_ok h
      obtain ⟨rest2, hrest2, h⟩ := except_bind_ok h
      by_cases hs : 0 < cand.score
      · rw [if_pos hs] at h
        simp only [pure, Except.pure, Except.ok.injEq] at h
        subst h
        rcases List.mem_cons.mp hc with rfl | hc2
        · refine ⟨hs, item, ?_, hhp⟩
          rw [mkCandidate_path spec p op _ hcand]
          exact List.mem_cons_self _ _
        · obtain ⟨hsc, item2, hm, hp2⟩ := ih rest2 hrest2 c hc2
          exact ⟨hsc, item2, List.mem_cons_of_mem _ hm, hp2⟩
      · rw [if_neg hs] at h
        simp only [pure, Except.pure, Except.ok.injEq] at h
        subst h
        obtain ⟨hsc, item2, hm, hp2⟩ := ih rest2 hrest2 c hc
        exact ⟨hsc, item2, List.mem_cons_of_mem _ hm, hp2⟩

/-- A document with a POST chat/completions operation and a GET-only
models operation. -/
def exSpec : Json := Json.obj [("paths", Json.obj
  [("/v1/chat/completions", Json.obj [("post", Json.obj [])]),
   ("/v1/models", Json.obj [("get", Json.obj [])])])]

/-- C9: endpoint discovery admits only path items with a `post` entry and
keeps only candidates of strictly positive score; the result is sorted by
score descending, is a reordering of the document-order candidate list,
and candidates of equal score keep their document order; on a document
with POST `/v1/chat/completions` and GET `/v1/models`, the chat path is
returned with score 26 > 0 (chat 10, completions 8, completion 8) and the
GET-only path is absent. -/
theorem c9_find_chat_endpoints (spec : Json)
    (cands : List EndpointCandidate)
    (h : findChatEndpoints spec = Except.ok cands) :
    (∀ c ∈ cands, 0 < c.score ∧
      ∃ item, (c.path, item) ∈ pathsList spec ∧
        pyIn "post" item = Except.ok true) ∧
    List.Pairwise (fun a b => b.score ≤ a.score) cands ∧
    (∃ raw, collectCandidates spec (pathsList spec) = Except.ok raw ∧
      cands = sortDesc raw ∧
      (∀ c, c ∈ cands ↔ c ∈ raw) ∧
      ∀ s : ℚ, cands.filter (fun c => decide (c.score = s)) =
        raw.filter (fun c => decide (c.score = s))) ∧
    (findChatEndpoints exSpec = Except.ok
      [⟨"/v1/chat/completions", "POST", "", "", "", 26, none, none, []⟩] ∧
      (0 : ℚ) < 26) := by
  rw [findChatEndpoints] at h
  obtain ⟨paths, hget, h⟩ := except_bind_ok h
  have hspec : ∃ fs, spec = Json.obj fs := by
    cases spec with
    | obj fs => exact ⟨fs, rfl⟩
    | null => simp [dgetD] at hget
    | bool b => simp [dgetD] at hget
    | num n => simp [dgetD] at hget
    | str s => simp [dgetD] at hget
    | arr xs => simp [dgetD] at hget
  obtain ⟨fs, rfl⟩ := hspec
  simp only [dgetD, Except.ok.injEq] at hget
  cases paths with
  | obj pfs =>
    have hpl : pathsList (Json.obj fs) = pfs := by
      rw [pathsList, hget]
    have h2 : Except.map sortDesc (collectCandidates (Json.obj fs) pfs) =
        Except.ok cands := h
    cases hcoll : collectCandidates (Json.obj fs) pfs with
    | error e => rw [hcoll] at h2; simp [Except.map] at h2
    | ok raw =>
      rw [hcoll] at h2
      simp only [Except.map, Except.ok.injEq] at h2
      subst h2
      refine ⟨?_, sortDesc_sorted raw, ⟨raw, ?_, rfl, ?_, ?_⟩, ?_, by norm_num⟩
      · intro c hc
        rw [hpl]
        exact collect_sound (Json.obj fs) pfs raw hcoll c
          ((mem_sortDesc c raw).mp hc)
      · rw [hpl]; exact hcoll
      · intro c; exact mem_sortDesc c raw
      · intro s; exact filter_sortDesc s raw
      · have hsc : scorePath "/v1/chat/completions" = 26 := by
          simp +decide only [scorePath, lowerStr, PATH_KEYWORDS,
            NEGATIVE_KEYWORDS, List.foldl]
          norm_num
        have hpos : (0 : ℚ) < scorePath "/v1/chat/completions" := by
          rw [hsc]; norm_num
        simp +decide [findChatEndpoints, exSpec, collectCandidates,
          mkCandidate, getLowerField, dgetD, jfind, bind, Except.bind, pure,
          Except.pure, asStr, getRequestSchema, getResponseSchema,
          schemaFromContent, pyIn, Option.isSome, Option.getD,
          getRequiredHeaders, collectHeaders, addSchemaBonus, getSchema,
          Except.map, lowerStr, addOpIdBonus, addSummaryBonus, PATH_KEYWORDS,
          List.foldl, strContains, dindex, hpos, hsc, sortDesc, insertDesc]
  | null => simp at h
  | bool b => simp at h
  | num n => simp at h
  | str s => simp at h
  | arr xs => simp at h

/-- Witness for `c9_find_chat_endpoints` at the two-endpoint document:
the single returned candidate is the POST chat path with positive
score. -/
theorem c9_find_chat_endpoints_witness :
    0 < (⟨"/v1/chat/completions", "POST", "", "", "", 26, none, none,
        []⟩ : EndpointCandidate).score ∧
      ∃ item,
        ((⟨"/v1/chat/completions", "POST", "", "", "", 26, none, none,
          []⟩ : EndpointCandidate).path, item) ∈ pathsList exSpec ∧
        pyIn "post" item = Except.ok true :=
  (c9_find_chat_endpoints exSpec
    [⟨"/v1/chat/completions", "POST", "", "", "", 26, none, none, []⟩]
    (by
      have hsc : scorePath "/v1/chat/completions" = 26 := by
        simp +decide only [scorePath, lowerStr, PATH_KEYWORDS,
          NEGATIVE_KEYWORDS, List.foldl]
        norm_num
      have hpos : (0 : ℚ) < scorePath "/v1/chat/completions" := by
        rw [hsc]; norm_num
      simp +decide [findChatEndpoints, exSpec, collectCandidates,
        mkCandidate, getLowerField, dgetD, jfind, bind, Except.bind, pure,
        Except.pure, asStr, getRequestSchema, getResponseSchema,
        schemaFromContent, pyIn, Option.isSome, Option.getD,
        getRequiredHeaders, collectHeaders, addSchemaBonus, getSchema,
        Except.map, lowerStr, addOpIdBonus, addSummaryBonus, PATH_KEYWORDS,
        List.foldl, strContains, dindex, hpos, hsc, sortDesc, insertDesc])).1
    ⟨"/v1/chat/completions", "POST", "", "", "", 26, none, none, []⟩
    (List.mem_singleton.mpr rfl)

end UAC
